import Mathlib

/-!
Verification development for Cosmic SafeCLI (`safe.py`).

The Python source is shallowly embedded: each Python function used by the
danger-detection and suggestion-resolution pipeline becomes an executable
Lean definition over `String` / `List Char`, translated line by line from
`safe.py`.  Python string primitives (`str.lower`, `str.startswith`,
`str.replace`, `in`, `str.split`, `shlex.split`) are modelled by explicit
recursive helpers below; lowering is modelled for the ASCII range, which is
the range the pipeline's data (commands, flags, patterns) lives in.
-/

namespace SafeCli

/-! ## Python string primitives -/

/-- Whitespace set used by `shlex` (` \t\r\n`). -/
def shlexIsWs (c : Char) : Bool :=
  c == ' ' || c == '\t' || c == '\r' || c == '\n'

/-- ASCII whitespace set used by Python `str.split()` / `str.strip()`. -/
def pyIsWs (c : Char) : Bool :=
  c == ' ' || c == '\t' || c == '\n' || c == '\r' || c == '\x0b' || c == '\x0c'

/-- Model of Python `str.startswith(pre)`. -/
def pyStartswith (s pre : String) : Bool :=
  pre.data.isPrefixOf s.data

/-- Contiguous-sublist test on character lists (Python `in` on strings). -/
def subList (pat : List Char) : List Char → Bool
  | [] => pat.isEmpty
  | c :: rest => pat.isPrefixOf (c :: rest) || subList pat rest

/-- Model of Python `pat in s` (substring containment). -/
def pyIn (pat s : String) : Bool :=
  subList pat.data s.data

/-- Model of Python `str.lower()` on the ASCII range. -/
def pyLower (s : String) : String :=
  String.mk (s.data.map Char.toLower)

/-- Model of Python `str.strip()` (ASCII whitespace). -/
def pyStrip (s : String) : String :=
  String.mk (((s.data.dropWhile pyIsWs).reverse.dropWhile pyIsWs).reverse)

/-- Model of Python `' '.join(tokens)`. -/
def joinSpace : List String → String
  | [] => ""
  | [t] => t
  | t :: u :: us => t ++ " " ++ joinSpace (u :: us)

/-- Fuel-driven worker for `pyReplace`; the fuel starts at the length of the
scanned list, which one unit per consumed character can never exhaust. -/
def pyReplaceFuel (pat rep : List Char) : Nat → List Char → List Char
  | 0, s => s
  | _ + 1, [] => []
  | fuel + 1, c :: rest =>
    if !pat.isEmpty && pat.isPrefixOf (c :: rest) then
      rep ++ pyReplaceFuel pat rep fuel (rest.drop (pat.length - 1))
    else
      c :: pyReplaceFuel pat rep fuel rest

/-- Model of Python `s.replace(pat, rep)`: every non-overlapping occurrence,
scanning left to right.  (All call sites in `safe.py` pass a non-empty
pattern; an empty pattern leaves the string unchanged here.) -/
def pyReplace (s pat rep : String) : String :=
  String.mk (pyReplaceFuel pat.data rep.data s.data.length s.data)

/-- Worker for Python `str.split()`: split on whitespace runs, dropping
empty fragments. -/
def splitWsGo : List Char → List Char → List String
  | [], acc => if acc.isEmpty then [] else [String.mk acc]
  | c :: rest, acc =>
    if pyIsWs c then
      if acc.isEmpty then splitWsGo rest []
      else String.mk acc :: splitWsGo rest []
    else
      splitWsGo rest (acc ++ [c])

/-- Model of Python `str.split()` (no separator argument). -/
def pySplitWs (s : String) : List String :=
  splitWsGo s.data []

/-! ## Python dict primitives (association lists) -/

/-- Model of Python `d.get(key, dflt)` on a string-keyed dict. -/
def dictGet (db : List (String × String)) (key dflt : String) : String :=
  match db.find? (fun kv => kv.1 == key) with
  | some kv => kv.2
  | none => dflt

/-- Model of Python `d[key] = value` (replace or append). -/
def dictSet (db : List (String × String)) (key value : String) :
    List (String × String) :=
  match db with
  | [] => [(key, value)]
  | kv :: rest =>
    if kv.1 == key then (key, value) :: rest else kv :: dictSet rest key value

/-- Model of Python `d.get(key)` returning an optional value. -/
def dictFind (db : List (String × String)) (key : String) : Option String :=
  (db.find? (fun kv => kv.1 == key)).map (fun kv => kv.2)

/-! ## Tokenizer: `parse_command` (safe.py lines 85-93)

`shlex.split` is modelled in POSIX whitespace-split mode: single quotes
group literally, double quotes group with backslash escaping of `"` and
`\`, a backslash outside quotes makes the next character literal, and an
unterminated quote or trailing escape raises `ValueError` (modelled as
`none`). -/

/-- Scanner state of the `shlex.split` model. -/
inductive ShMode where
  | normal
  | escaped
  | single
  | double
  | doubleEsc
deriving DecidableEq

/-- Emit the pending token, if one was started. -/
def shlexFlush (acc : Option (List Char)) (out : List String) : List String :=
  match acc with
  | some cs => out ++ [String.mk cs]
  | none => out

/-- Append a character to the pending token, starting one if needed. -/
def shlexAppend (acc : Option (List Char)) (c : Char) : Option (List Char) :=
  some ((acc.getD []) ++ [c])

/-- Character-by-character worker of the `shlex.split` model. -/
def shlexGo : List Char → ShMode → Option (List Char) → List String →
    Option (List String)
  | [], .normal, acc, out => some (shlexFlush acc out)
  | [], .escaped, _, _ => none
  | [], .single, _, _ => none
  | [], .double, _, _ => none
  | [], .doubleEsc, _, _ => none
  | c :: rest, .normal, acc, out =>
    if shlexIsWs c then shlexGo rest .normal none (shlexFlush acc out)
    else if c == '\x27' then shlexGo rest .single (some (acc.getD [])) out
    else if c == '"' then shlexGo rest .double (some (acc.getD [])) out
    else if c == '\\' then shlexGo rest .escaped (some (acc.getD [])) out
    else shlexGo rest .normal (shlexAppend acc c) out
  | c :: rest, .escaped, acc, out => shlexGo rest .normal (shlexAppend acc c) out
  | c :: rest, .single, acc, out =>
    if c == '\x27' then shlexGo rest .normal acc out
    else shlexGo rest .single (shlexAppend acc c) out
  | c :: rest, .double, acc, out =>
    if c == '"' then shlexGo rest .normal acc out
    else if c == '\\' then shlexGo rest .doubleEsc acc out
    else shlexGo rest .double (shlexAppend acc c) out
  | c :: rest, .doubleEsc, acc, out =>
    if c == '"' || c == '\\' then shlexGo rest .double (shlexAppend acc c) out
    else shlexGo rest .double (shlexAppend (shlexAppend acc '\\') c) out

/-- Model of `shlex.split(s)`; `none` models a raised `ValueError`. -/
def shlexSplit (s : String) : Option (List String) :=
  shlexGo s.data .normal none []

/-- Translation of `parse_command` (safe.py lines 85-93): `shlex.split`
with a naive whitespace-split fallback when shlex raises. -/
def parse_command (cmd_str : String) : List String :=
  match shlexSplit cmd_str with
  | some toks => toks
  | none => pySplitWs (pyStrip cmd_str)

/-! ## Short-flag expansion (safe.py lines 96-103) -/

/-- Translation of `_expand_short_flags` (safe.py lines 96-103). -/
def _expand_short_flags (token : String) : List String :=
  if pyStartswith token "--" || !pyStartswith token "-" ||
      decide (token.length ≤ 2) then
    [token]
  else
    (token.data.drop 1).map (fun ch => String.mk ['-', ch])

/-! ## Explanation lookup (safe.py lines 106-119) -/

/-- Translation of `explain_tokens` (safe.py lines 106-119): the nested
accumulation loop becomes list recursion with an appended map per token. -/
def explain_tokens (tokens : List String) (commands_db : List (String × String)) :
    List (String × String) :=
  match tokens with
  | [] => []
  | token :: rest =>
    let parts :=
      if pyStartswith token "-" && !pyStartswith token "--" then
        _expand_short_flags token
      else
        [token]
    parts.map (fun part => (part, dictGet commands_db part "No explanation available"))
      ++ explain_tokens rest commands_db

/-! ## Danger matcher (safe.py lines 122-135) -/

/-- A record of the danger-pattern table; fields are optional because the
Python source reads them with `dict.get`. -/
structure DangerEntry where
  pattern : Option String
  explanation : Option String
  advice : Option String
deriving DecidableEq, Repr

/-- The accumulation loop of `detect_danger` (safe.py lines 131-134). -/
def detectDangerGo (normalized : String) : List DangerEntry → List DangerEntry
  | [] => []
  | entry :: rest =>
    let pat := pyLower (entry.pattern.getD "")
    if pat != "" && pyIn pat normalized then
      entry :: detectDangerGo normalized rest
    else
      detectDangerGo normalized rest

/-- Translation of `detect_danger` (safe.py lines 122-135). -/
def detect_danger (cmd_str : String) (danger_patterns : List DangerEntry) :
    List DangerEntry :=
  detectDangerGo (pyLower (joinSpace (parse_command cmd_str))) danger_patterns

/-! ## Local fallback rules: `generate_fallback` (safe.py lines 288-365)

Two impure reads inside the function are made explicit parameters:
`os_nt` models `os.name == 'nt'` and `isfile` models `os.path.isfile`. -/

/-- The manual-review sentinel (safe.py lines 294 and 365). -/
def no_alternative : String :=
  "No safe automatic alternative available. Review command manually."

/-- The non-Windows `rm` rewrite (safe.py line 339): space-delimited string
replacements on the joined command.  (The per-argument `new_args` rewrite
computed on lines 328-338 of the source is never used by the return
statement and is therefore not part of the function's value.) -/
def rmPosix (full_cmd : String) : String :=
  pyReplace (pyReplace (pyReplace full_cmd " -rf " " -ri ") " -fr " " -ir ") " -f " " -i "

/-- The Windows `rm` rewrite (safe.py lines 308-325). -/
def rmWindows (isfile : String → Bool) (args : List String) : String :=
  let targets := args.filter (fun a => !pyStartswith a "-")
  match targets with
  | [] => "echo \x27Please specify a target directory\x27"
  | target :: _ =>
    let is_file := isfile target
    let quoted_targets := targets.map (fun t => "\"" ++ t ++ "\"")
    let args_str := joinSpace quoted_targets
    if is_file then "del /F /Q " ++ args_str else "rmdir /S /Q " ++ args_str

/-- Translation of `generate_fallback` (safe.py lines 288-365).  The Python
sequence of early-return `if` blocks becomes one `if`-chain; a block whose
guard fails falls through to the next, ending at the sentinel.  (The second
`chmod` test on line 345 of the source is unreachable: it requires `'777'
in args`, which line 343 already returned on.) -/
def generate_fallback (os_nt : Bool) (isfile : String → Bool)
    (command_tokens : List String) : String :=
  match command_tokens with
  | [] => no_alternative
  | cmd :: args =>
    let full_cmd := joinSpace (cmd :: args)
    let has_r := args.any (fun a => pyStartswith a "-" && a.data.contains 'r')
    if cmd == "rm" && has_r then
      if os_nt then rmWindows isfile args else rmPosix full_cmd
    else if cmd == "chmod" && args.contains "777" then
      pyReplace full_cmd " 777 " " 755 "
    else if cmd == "git" && (args.contains "reset" && args.contains "--hard") then
      "git restore --staged ."
    else if cmd == "git" && (args.contains "clean" &&
        (args.contains "-fd" || args.contains "-df" ||
          (args.contains "-f" && args.contains "-d"))) then
      "git clean -n"
    else if cmd == "dd" then
      "echo \"Dangerous disk overwrite command blocked\""
    else if cmd == "mkfs" ||
        (cmd :: args).any (fun c => pyStartswith c "mkfs.") then
      "echo \"Filesystem format prevented\""
    else
      no_alternative

/-! ## ANSI escape stripping (safe.py line 494)

Model of the substitution regex of safe.py line 494: ESC followed either by
one character in the ranges 0x40-0x5A or 0x5C-0x5F, or by a CSI sequence
(an opening bracket, then parameter bytes 0x30-0x3F, then intermediate
bytes 0x20-0x2F, then one final byte 0x40-0x7E) is removed.  The three CSI
character classes are pairwise disjoint, so the greedy scan below is
exactly the regex's behaviour. -/

/-- Bool test for `lo ≤ c ≤ hi` on characters. -/
def charBetween (lo hi c : Char) : Bool :=
  Nat.ble lo.toNat c.toNat && Nat.ble c.toNat hi.toNat

/-- Match the tail of a CSI sequence (after `ESC [`): parameter bytes, then
intermediate bytes, then one final byte; `none` when the regex alternative
does not match here. -/
def ansiCsiTail (l : List Char) : Option (List Char) :=
  let l1 := l.dropWhile (charBetween '0' '?')
  let l2 := l1.dropWhile (charBetween ' ' '/')
  match l2 with
  | f :: rest => if charBetween '@' '~' f then some rest else none
  | [] => none

/-- Fuel-driven worker of the ANSI stripper; fuel starts at the input
length, which one unit per consumed character can never exhaust. -/
def ansiStripGo : Nat → List Char → List Char
  | 0, l => l
  | _ + 1, [] => []
  | fuel + 1, c :: rest =>
    if c == '\x1b' then
      match rest with
      | [] => [c]
      | d :: rest2 =>
        if charBetween '@' 'Z' d || charBetween '\\' '_' d then
          ansiStripGo fuel rest2
        else if d == '[' then
          match ansiCsiTail rest2 with
          | some r => ansiStripGo fuel r
          | none => c :: ansiStripGo fuel rest
        else
          c :: ansiStripGo fuel rest
    else
      c :: ansiStripGo fuel rest

/-- Model of the ANSI-escape removal regex substitution (safe.py line 494). -/
def ansi_strip (s : String) : String :=
  String.mk (ansiStripGo s.data.length s.data)

/-! ## Suggestion resolution in `main` (safe.py lines 487-523) -/

/-- The error-message prefixes of safe.py lines 497-499. -/
def err_starts : List String :=
  ["Copilot returned", "Copilot CLI not found", "Copilot did not",
   "Copilot request", "Failed to run Copilot", "Did you mean:",
   "For non-interactive", "GitHub Copilot quota exceeded",
   "No safe automatic alternative", "Gemini API"]

/-- The error classification of safe.py line 501: the ANSI-stripped,
trimmed suggestion starts with a known error prefix, or is empty. -/
def is_error_text (clean : String) : Bool :=
  err_starts.any (fun s => pyStartswith clean s) || clean == ""

/-- The Gemini failure prefixes of safe.py line 511. -/
def gemini_fail_starts : List String :=
  ["Gemini API", "Failed to parse"]

/-- The message `get_copilot_suggestion` returns on `FileNotFoundError`
(safe.py line 227). -/
def copilot_not_found_msg : String :=
  "GitHub Copilot CLI not found. Install \x27gh\x27 with \x27copilot\x27 extension."

/-- Translation of the suggestion-resolution dataflow of `main` (safe.py
lines 490-523): the value of the `suggestion` variable after the fallback
cascade, given the primary backend's output, the optional Gemini key (with
Python truthiness: `none` or the empty string count as unset), and the
Gemini backend's output. -/
def resolve_suggestion (copilot_suggestion : String) (gemini_key : Option String)
    (gemini_suggestion : String) (os_nt : Bool) (isfile : String → Bool)
    (tokens : List String) : String :=
  let clean_suggestion := pyStrip (ansi_strip copilot_suggestion)
  let is_error := is_error_text clean_suggestion
  if is_error then
    if (match gemini_key with | some k => k != "" | none => false) then
      let clean_gemini := pyStrip (ansi_strip gemini_suggestion)
      if gemini_fail_starts.any (fun s => pyStartswith clean_gemini s) then
        generate_fallback os_nt isfile tokens
      else
        gemini_suggestion
    else
      generate_fallback os_nt isfile tokens
  else
    copilot_suggestion

/-! ## Environment handling of `get_copilot_suggestion` (safe.py lines 151-153) -/

/-- The observable environment effect of one `get_copilot_suggestion` call. -/
structure CopilotCallEffect where
  /-- `os.environ` of the parent process after the call returns. -/
  parent_environ : List (String × String)
  /-- The environment mapping handed to `subprocess.run`. -/
  subprocess_env : List (String × String)
deriving DecidableEq, Repr

/-- Translation of the environment handling of `get_copilot_suggestion`
(safe.py lines 151-153): `env = os.environ.copy()` makes `env` a distinct
dict, the optional key assignment targets that copy, and `os.environ`
itself is never assigned to anywhere in the function. -/
def get_copilot_suggestion_env (environ : List (String × String))
    (api_key : Option String) : CopilotCallEffect :=
  let env := environ
  let env :=
    match api_key with
    | some k => dictSet env "COPILOT_API_KEY" k
    | none => env
  { parent_environ := environ, subprocess_env := env }

/-! ## Helper lemmas -/

/-- String concatenation concatenates the underlying character lists. -/
theorem string_data_append (a b : String) : (a ++ b).data = a.data ++ b.data := by
  cases a
  cases b
  rfl

/-- ASCII lowering distributes over string concatenation. -/
theorem pyLower_append (a b : String) : pyLower (a ++ b) = pyLower a ++ pyLower b := by
  cases a with
  | mk da =>
    cases b with
    | mk db =>
      show String.mk (((String.mk da ++ String.mk db).data).map Char.toLower) = _
      rw [string_data_append]
      show String.mk ((da ++ db).map Char.toLower) =
        String.mk (da.map Char.toLower) ++ String.mk (db.map Char.toLower)
      rw [List.map_append]
      rfl

/-- Lowering the space-joined tokens equals joining the lowered tokens:
the code's normalization (join, then lower) coincides with the spec's
description (lower each token, then join). -/
theorem pyLower_joinSpace (ts : List String) :
    pyLower (joinSpace ts) = joinSpace (ts.map pyLower) := by
  induction ts with
  | nil => rfl
  | cons t rest ih =>
    cases rest with
    | nil => rfl
    | cons u us =>
      show pyLower (t ++ " " ++ joinSpace (u :: us)) = _
      rw [pyLower_append, pyLower_append, ih]
      rfl

/-- The accumulation loop of `detect_danger` is a filter by the match
predicate. -/
theorem detectDangerGo_eq_filter (n : String) (ps : List DangerEntry) :
    detectDangerGo n ps =
      ps.filter (fun e =>
        pyLower (e.pattern.getD "") != "" && pyIn (pyLower (e.pattern.getD "")) n) := by
  induction ps with
  | nil => rfl
  | cons e rest ih =>
    show (if pyLower (e.pattern.getD "") != "" && pyIn (pyLower (e.pattern.getD "")) n
        then e :: detectDangerGo n rest else detectDangerGo n rest) = _
    rw [List.filter_cons]
    by_cases h : (pyLower (e.pattern.getD "") != "" &&
        pyIn (pyLower (e.pattern.getD "")) n) = true
    · rw [if_pos h, if_pos h, ih]
    · rw [if_neg h, if_neg h, ih]

/-- Short-flag expansion always produces at least one token. -/
theorem expand_short_flags_length_pos (t : String) :
    1 ≤ (_expand_short_flags t).length := by
  unfold _expand_short_flags
  by_cases h : (pyStartswith t "--" || !pyStartswith t "-" ||
      decide (t.length ≤ 2)) = true
  · rw [if_pos h]
    exact Nat.le_refl 1
  · rw [if_neg h]
    rw [List.length_map, List.length_drop]
    have hlen : ¬ t.length ≤ 2 := by
      intro hle
      exact h (by simp [hle])
    have : 2 < t.length := Nat.lt_of_not_le hlen
    have : 2 < t.data.length := this
    omega

/-! ## Claim theorems -/

/-- C1: `detect_danger` returns exactly the entries of the pattern list, in
source order, whose lower-cased `pattern` field is a non-empty substring of
the normalized command (tokens lower-cased and joined with single spaces);
an absent or empty pattern never matches, and matching is case-insensitive
(all matches are returned, as the second conjunct illustrates on the
spec's two-pattern example and the third on the upper-cased command). -/
theorem detect_danger_spec (cmd_str : String) (pats : List DangerEntry) :
    detect_danger cmd_str pats =
      pats.filter (fun e =>
        pyLower (e.pattern.getD "") != "" &&
        pyIn (pyLower (e.pattern.getD ""))
          (joinSpace ((parse_command cmd_str).map pyLower))) ∧
    detect_danger "sudo rm -rf /"
        [⟨some "rm -rf", some "recursive force remove", none⟩,
         ⟨some "", some "empty never matches", none⟩,
         ⟨some "git reset --hard", some "hard reset", none⟩] =
      [⟨some "rm -rf", some "recursive force remove", none⟩] ∧
    detect_danger "RM -RF /tmp" [⟨some "rm -rf", some "recursive force remove", none⟩] =
      [⟨some "rm -rf", some "recursive force remove", none⟩] := by
  refine ⟨?_, by decide, by decide⟩
  show detectDangerGo (pyLower (joinSpace (parse_command cmd_str))) pats = _
  rw [detectDangerGo_eq_filter, pyLower_joinSpace]

/-- C3: short-flag expansion sends a token of the form `-xyz` (single
leading dash, length above 2, not a long flag) to the per-character flags
`-x, -y, -z`, leaves tokens starting with `--` or without a leading dash
unchanged, and tokenizing `rm -rf foo` then expanding yields exactly
`rm, -r, -f, foo`. -/
theorem expand_short_flags_spec (t : String) :
    (pyStartswith t "--" = true ∨ pyStartswith t "-" = false →
      _expand_short_flags t = [t]) ∧
    (pyStartswith t "-" = true → pyStartswith t "--" = false → 2 < t.length →
      _expand_short_flags t = (t.data.drop 1).map (fun ch => String.mk ['-', ch])) ∧
    (parse_command "rm -rf foo").flatMap _expand_short_flags =
      ["rm", "-r", "-f", "foo"] := by
  refine ⟨?_, ?_, by decide⟩
  · intro h
    unfold _expand_short_flags
    rcases h with h | h
    · rw [if_pos (by simp [h])]
    · rw [if_pos (by simp [h])]
  · intro h1 h2 h3
    have hlen : ¬ (t.length ≤ 2) := by omega
    unfold _expand_short_flags
    rw [h1, h2, decide_eq_false hlen]
    simp

/-- C3 witness: the theorem applied at the concrete tokens `--verbose` and
`-rf`. -/
theorem expand_short_flags_spec_witness :
    _expand_short_flags "--verbose" = ["--verbose"] ∧
    _expand_short_flags "-rf" =
      (("-rf" : String).data.drop 1).map (fun ch => String.mk ['-', ch]) :=
  ⟨(expand_short_flags_spec "--verbose").1 (Or.inl (by decide)),
   (expand_short_flags_spec "-rf").2.1 (by decide) (by decide) (by decide)⟩

/-- C9: `generate_fallback` on the empty token list returns the
manual-review sentinel instead of failing. -/
theorem generate_fallback_empty (os_nt : Bool) (isfile : String → Bool) :
    generate_fallback os_nt isfile [] =
      "No safe automatic alternative available. Review command manually." := rfl

/-- C10: `explain_tokens` emits at least one `(token, explanation)` pair
per input token, so its output is at least as long as its input and is
non-empty whenever the input is. -/
theorem explain_tokens_spec (tokens : List String)
    (commands_db : List (String × String)) :
    tokens.length ≤ (explain_tokens tokens commands_db).length ∧
    (tokens ≠ [] → explain_tokens tokens commands_db ≠ []) := by
  induction tokens with
  | nil => exact ⟨Nat.le_refl 0, fun h => absurd rfl h⟩
  | cons token rest ih =>
    have hparts : 1 ≤ (if pyStartswith token "-" && !pyStartswith token "--" then
        _expand_short_flags token else [token]).length := by
      by_cases h : (pyStartswith token "-" && !pyStartswith token "--") = true
      · rw [if_pos h]
        exact expand_short_flags_length_pos token
      · rw [if_neg h]
        exact Nat.le_refl 1
    have hexp : explain_tokens (token :: rest) commands_db =
        (if pyStartswith token "-" && !pyStartswith token "--" then
          _expand_short_flags token else [token]).map
          (fun part => (part, dictGet commands_db part "No explanation available"))
          ++ explain_tokens rest commands_db := rfl
    constructor
    · rw [hexp, List.length_append, List.length_map, List.length_cons]
      have hrest := ih.1
      omega
    · intro _
      rw [hexp]
      intro hcontra
      rcases List.append_eq_nil.mp hcontra with ⟨h1, _⟩
      have hlen := congrArg List.length h1
      rw [List.length_map] at hlen
      simp only [List.length_nil] at hlen
      omega

/-- C10 witness: the theorem applied at a concrete token list (one plain
command, one short-flag cluster) and empty explanation table. -/
theorem explain_tokens_spec_witness :
    (["rm", "-rf"] : List String).length ≤ (explain_tokens ["rm", "-rf"] []).length ∧
    explain_tokens ["rm", "-rf"] [] ≠ [] :=
  ⟨(explain_tokens_spec ["rm", "-rf"] []).1,
   (explain_tokens_spec ["rm", "-rf"] []).2 (by decide)⟩

/-- C4: on the non-Windows family the `rm` rule returns the command
`rm -rfv foo` completely unchanged — the recursive force removal the
claim (and the spec's safety-net sentence) says is rewritten to
interactive and never suggested: the space-delimited replacements of
safe.py line 339 miss any flag cluster that is not exactly ` -rf `,
` -fr ` or ` -f `, while the per-argument rewrite that would handle it
(lines 328-338) is computed into `new_args` and then discarded. -/
theorem rm_force_returned_unchanged :
    generate_fallback false (fun _ => false) ["rm", "-rfv", "foo"] =
      joinSpace ["rm", "-rfv", "foo"] ∧
    joinSpace ["rm", "-rfv", "foo"] = "rm -rfv foo" := by
  constructor <;> decide

/-- C5 counterexample: the local fallback has no `git push --force` rule,
so `fallback(["git","push","--force"])` is the manual-review sentinel, not
`git push --force-with-lease` as the claim states. -/
theorem git_push_force_cex :
    generate_fallback false (fun _ => false) ["git", "push", "--force"] ≠
      "git push --force-with-lease" ∧
    generate_fallback false (fun _ => false) ["git", "push", "--force"] =
      no_alternative := by
  constructor <;> decide

/-- C5 amended: a `git push` command with `--force` or `-f` that matches
no other fallback rule (not the `reset --hard` rule, not the `git clean`
rule, and containing no `mkfs.`-prefixed token) gets the manual-review
sentinel: `generate_fallback` has no force-push rule at all. -/
theorem git_push_force_sentinel (os_nt : Bool) (isfile : String → Bool)
    (args : List String)
    (_hpush : "push" ∈ args)
    (_hforce : "--force" ∈ args ∨ "-f" ∈ args)
    (hreset : ¬("reset" ∈ args ∧ "--hard" ∈ args))
    (hclean : ¬("clean" ∈ args ∧ (("-fd" ∈ args ∨ "-df" ∈ args) ∨
        ("-f" ∈ args ∧ "-d" ∈ args))))
    (hmkfs : args.any (fun c => pyStartswith c "mkfs.") = false) :
    generate_fallback os_nt isfile ("git" :: args) = no_alternative := by
  have e6 : pyStartswith "git" "mkfs." = false := by decide
  simp [generate_fallback, e6, hreset, hclean, hmkfs]

/-- C5 witness: the amended theorem applied at `git push --force`. -/
theorem git_push_force_sentinel_witness :
    generate_fallback false (fun _ => false) ["git", "push", "--force"] =
      no_alternative :=
  git_push_force_sentinel false (fun _ => false) ["push", "--force"]
    (by decide) (Or.inl (by decide)) (by decide) (by decide) (by decide)

/-- C6 counterexample: with `777` as the final token there is no trailing
space, so the replacement of safe.py line 344 does not fire and the
command is returned with `777` intact, contradicting the claim's
universally quantified `777 → 755` replacement. -/
theorem chmod_777_cex :
    generate_fallback false (fun _ => false) ["chmod", "777"] = "chmod 777" ∧
    generate_fallback false (fun _ => false) ["chmod", "777"] ≠ "chmod 755" := by
  constructor <;> decide

/-- C6 amended: for a `chmod` command whose arguments contain `777`, the
fallback returns the joined command with every space-surrounded occurrence
of ` 777 ` replaced by ` 755 ` (so a `777` with no following token is left
unchanged); the claim's concrete example `chmod 777 file.sh` is recovered
by the witness. -/
theorem chmod_777_replace (os_nt : Bool) (isfile : String → Bool)
    (args : List String) (h : "777" ∈ args) :
    generate_fallback os_nt isfile ("chmod" :: args) =
      pyReplace (joinSpace ("chmod" :: args)) " 777 " " 755 " := by
  simp [generate_fallback, h]

/-- C6 witness: the amended theorem applied at `chmod 777 file.sh`,
recovering the claim's concrete example. -/
theorem chmod_777_replace_witness :
    generate_fallback false (fun _ => false) ["chmod", "777", "file.sh"] =
      "chmod 755 file.sh" :=
  (chmod_777_replace false (fun _ => false) ["777", "file.sh"] (by decide)).trans
    (by decide)

/-- C7 counterexample: the `mkfs.` test of safe.py line 362 scans every
token, not only the first, so `fallback(["ls","mkfs.ext4"])` returns the
format-blocking message instead of the manual-review sentinel the claim
requires for a first token of `ls`. -/
theorem fallback_first_token_cex :
    generate_fallback false (fun _ => false) ["ls", "mkfs.ext4"] ≠ no_alternative ∧
    generate_fallback false (fun _ => false) ["ls", "mkfs.ext4"] =
      "echo \"Filesystem format prevented\"" := by
  constructor <;> decide

/-- C7 amended: for every non-empty token list whose first token is none
of `rm`, `chmod`, `git`, `dd`, `mkfs` and in which no token at all starts
with `mkfs.`, the fallback returns the manual-review sentinel; in
particular `fallback(["ls","-la"])` is the sentinel (witness). -/
theorem fallback_default_sentinel (os_nt : Bool) (isfile : String → Bool)
    (cmd : String) (args : List String)
    (h1 : (cmd == "rm") = false) (h2 : (cmd == "chmod") = false)
    (h3 : (cmd == "git") = false) (h4 : (cmd == "dd") = false)
    (h5 : (cmd == "mkfs") = false)
    (h6 : (cmd :: args).any (fun c => pyStartswith c "mkfs.") = false) :
    generate_fallback os_nt isfile (cmd :: args) = no_alternative := by
  simp [generate_fallback, h1, h2, h3, h4, h5, h6]

/-- C7 witness: the amended theorem applied at `ls -la`, recovering the
claim's concrete example. -/
theorem fallback_default_sentinel_witness :
    generate_fallback false (fun _ => false) ["ls", "-la"] = no_alternative :=
  fallback_default_sentinel false (fun _ => false) "ls" ["-la"]
    (by decide) (by decide) (by decide) (by decide) (by decide) (by decide)

/-- C2: the error-prefix list of safe.py line 497 contains
`Copilot CLI not found`, but the message `get_copilot_suggestion` actually
returns when the CLI binary is absent starts with `GitHub Copilot CLI not
found`, so the classifier treats it as a valid suggestion: with no Gemini
key configured the resolved display text is the error message itself and
not `generate_fallback(tokens)` as the claim requires (for the other error
outcomes — timeout shown here — the cascade does reach the fallback). -/
theorem resolve_notfound_skips_fallback :
    is_error_text copilot_not_found_msg = false ∧
    resolve_suggestion copilot_not_found_msg none "" false (fun _ => false)
      ["rm", "-rf", "/"] = copilot_not_found_msg ∧
    copilot_not_found_msg ≠ generate_fallback false (fun _ => false) ["rm", "-rf", "/"] ∧
    resolve_suggestion
        "Copilot request timed out. Try again or use --copilot-timeout 60 (or higher)."
        none "" false (fun _ => false) ["rm", "-rf", "/"] =
      generate_fallback false (fun _ => false) ["rm", "-rf", "/"] := by
  refine ⟨by decide, by decide, by decide, by decide⟩

/-- C8: `get_copilot_suggestion` leaves the parent `os.environ` untouched:
the optional credential is written only into the copied mapping handed to
the subprocess. -/
theorem copilot_env_no_mutation (environ : List (String × String))
    (api_key : Option String) :
    (get_copilot_suggestion_env environ api_key).parent_environ = environ ∧
    (∀ k, api_key = some k →
      (get_copilot_suggestion_env environ api_key).subprocess_env =
        dictSet environ "COPILOT_API_KEY" k) := by
  refine ⟨rfl, ?_⟩
  intro k hk
  rw [hk]
  rfl

/-- C8 witness: the theorem applied at a concrete environment and key. -/
theorem copilot_env_no_mutation_witness :
    (get_copilot_suggestion_env [("PATH", "/usr/bin")] (some "k1")).parent_environ =
      [("PATH", "/usr/bin")] ∧
    (get_copilot_suggestion_env [("PATH", "/usr/bin")] (some "k1")).subprocess_env =
      dictSet [("PATH", "/usr/bin")] "COPILOT_API_KEY" "k1" :=
  ⟨(copilot_env_no_mutation [("PATH", "/usr/bin")] (some "k1")).1,
   (copilot_env_no_mutation [("PATH", "/usr/bin")] (some "k1")).2 "k1" rfl⟩

end SafeCli
